import Mathlib

/-!
Shallow embedding of the `log.c` leveled logging library (rxi / BDeliers
variant) and verification of its natural-language specification.

The single source file `src/log.c` is translated definition by definition.
The header `log.h` is not part of the source tree; the pieces it declares
(the `log_LogLevel` enumeration, the `log_Event` structure, the
`log_LogFn` / `log_LockFn` callback types) are modelled from the spec,
which fixes `FATAL=0, ERROR=1, WARN=2, INFO=3, DEBUG=4, TRACE=5` and the
event fields (format string, variadic arguments, file, line, level,
timestamp, destination).

Compile-time configuration is taken at its defaults, as in the source:
`LOGC__MAX_CALLBACKS = 10`, `LOGC__TIME_FORMAT = 2` (formatted local
time), `LOGC__STDOUT_COLOR` undefined (no colors),
`LOGC__STDOUT_NO_FILEINFO` undefined (file info printed), and
`LOGC__DEFAULT_STDOUT = stderr`.

Side effects (stream writes, flushes, lock-hook invocations, calls of
user-registered callbacks) are recorded as a trace of `Action`s, in the
order the C code performs them.  Epoch time, `strftime` rendering of it,
and `printf`-style expansion of the format string against the variadic
arguments are opaque to the logger, so they enter the model as
parameters (`now : Nat` and a `RenderEnv` of string-producing
functions).
-/

set_option autoImplicit false

namespace LogC

/-- Opaque pointer / stream-handle values (`void *`, `FILE *`); `0` plays NULL. -/
abbrev Ptr := Nat

/-- Modelled from the spec: the variadic argument pack (`va_list`), opaque to
the logger, which only hands it to `vfprintf`. -/
abbrev VaList := List String

/-- Modelled from the spec: the `log_LogLevel` enumeration declared in the
missing header `log.h`: `FATAL=0, ERROR=1, WARN=2, INFO=3, DEBUG=4, TRACE=5`
(ordered by declaration, most severe first).  Levels are carried as `Nat`. -/
def LOG_FATAL : Nat := 0

/-- Level `ERROR = 1` (see `LOG_FATAL`). -/
def LOG_ERROR : Nat := 1

/-- Level `WARN = 2` (see `LOG_FATAL`). -/
def LOG_WARN : Nat := 2

/-- Level `INFO = 3` (see `LOG_FATAL`). -/
def LOG_INFO : Nat := 3

/-- Level `DEBUG = 4` (see `LOG_FATAL`). -/
def LOG_DEBUG : Nat := 4

/-- Level `TRACE = 5` (see `LOG_FATAL`). -/
def LOG_TRACE : Nat := 5

/-- Modelled from the spec: a `log_LogFn` callback pointer.  The repository
provides `stdout_callback` and `file_callback`; any other (caller-supplied)
callback is opaque and identified by a number. -/
inductive log_LogFn where
  | stdout_cb : log_LogFn
  | file_cb : log_LogFn
  | user : Nat → log_LogFn
deriving DecidableEq

/-- Modelled from the spec: the `log_Event` structure declared in the missing
header `log.h` — format string, variadic arguments, source file, source line,
level, timestamp, destination stream. -/
structure log_Event where
  fmt : String
  ap : VaList
  file : String
  line : Int
  level : Nat
  time : Nat
  stream : Ptr
deriving DecidableEq

/-- The `Callback` structure of `log.c`: callback function (NULL marks an empty
registry slot), destination stream, threshold level. -/
structure Callback where
  fn : Option log_LogFn
  stream : Ptr
  level : Nat
deriving DecidableEq

/-- Constant `LOGC__MAX_CALLBACKS`: maximum number of registered callbacks (default). -/
def LOGC__MAX_CALLBACKS : Nat := 10

/-- Constant `LOGC__DEFAULT_STDOUT`: the standard-output destination, `stderr` by
default; modelled as the fixed handle `2`. -/
def LOGC__DEFAULT_STDOUT : Ptr := 2

/-- The global log-management structure `L` of `log.c`: lock context, lock
hook (NULL disables it; hooks are opaque and identified by a number),
standard-output threshold, quiet flag, and the fixed-size callback array
(modelled as a list whose length stays `LOGC__MAX_CALLBACKS`). -/
structure LState where
  lock_ptr : Ptr
  lock_fn : Option Nat
  std_level : Nat
  std_quiet : Bool
  callbacks : List Callback
deriving DecidableEq

/-- The zero-initialized static `L`: no lock hook, threshold `0`, not quiet,
all `LOGC__MAX_CALLBACKS` slots empty (NULL `fn`). -/
def L_init : LState :=
  { lock_ptr := 0
    lock_fn := none
    std_level := 0
    std_quiet := false
    callbacks := List.replicate LOGC__MAX_CALLBACKS { fn := none, stream := 0, level := 0 } }

/-- The `level_strings` array of `log.c`. -/
def level_strings : List String := ["FATAL", "ERROR", "WARN", "INFO", "DEBUG", "TRACE"]

/-- Function `log_level_string`: `return level_strings[level];`.  Indexing out of the
array (an invalid level) is undefined behavior in C; the model returns `""`
there. -/
def log_level_string (level : Nat) : String := level_strings.getD level ""

/-- One observable side effect of a log call, in program order: a `fprintf` /
`vfprintf` write of a rendered string to a stream, an `fflush` of a stream, an
invocation `lock_fn(acquire, lock_ptr)` of the installed lock hook, or an
invocation of a caller-supplied (opaque) callback on an event. -/
inductive Action where
  | write : Ptr → String → Action
  | flush : Ptr → Action
  | lockCall : Nat → Bool → Ptr → Action
  | userCall : Nat → log_Event → Action
deriving DecidableEq

/-- The string-producing primitives the logger treats as black boxes:
`strftime "%H:%M:%S"` of the event time (used by `stdout_callback`),
`strftime "%Y-%m-%d %H:%M:%S"` of the event time (used by `file_callback`),
and `vfprintf`-expansion of a format string against a `va_list`. -/
structure RenderEnv where
  strftime_hms : Nat → String
  strftime_ymd : Nat → String
  vfprintf_str : String → VaList → String

/-- Rendering of C's `"%-5s"`: the string left-justified in a field of width
5 (padded with spaces on the right when shorter than 5). -/
def pad_minus_5 (s : String) : String :=
  s ++ String.mk (List.replicate (5 - s.length) ' ')

/-- Function `stdout_callback` of `log.c` at default configuration
(`LOGC__TIME_FORMAT == 2`, no `LOGC__STDOUT_COLOR`, no
`LOGC__STDOUT_NO_FILEINFO`): writes the `"%H:%M:%S"` time, the `"%-5s "`
level name, the `"%s:%d: "` file and line, the `vfprintf` expansion of the
format string, a newline, then flushes — each `fprintf` one `write` action. -/
def stdout_callback (env : RenderEnv) (ev : log_Event) : List Action :=
  [ Action.write ev.stream (env.strftime_hms ev.time ++ " ")
  , Action.write ev.stream (pad_minus_5 (level_strings.getD ev.level "") ++ " ")
  , Action.write ev.stream (ev.file ++ ":" ++ toString ev.line ++ ": ")
  , Action.write ev.stream (env.vfprintf_str ev.fmt ev.ap)
  , Action.write ev.stream "\n"
  , Action.flush ev.stream ]

/-- Function `file_callback` of `log.c` at default configuration
(`LOGC__TIME_FORMAT == 2`): writes the `"%Y-%m-%d %H:%M:%S"` time, then in
one `fprintf` the `"%-5s %s:%d: "` level name, file and line, then the
`vfprintf` expansion, a newline, then flushes. -/
def file_callback (env : RenderEnv) (ev : log_Event) : List Action :=
  [ Action.write ev.stream (env.strftime_ymd ev.time ++ " ")
  , Action.write ev.stream
      (pad_minus_5 (level_strings.getD ev.level "") ++ " " ++ ev.file ++ ":"
        ++ toString ev.line ++ ": ")
  , Action.write ev.stream (env.vfprintf_str ev.fmt ev.ap)
  , Action.write ev.stream "\n"
  , Action.flush ev.stream ]

/-- Invocation of a callback pointer on an event: the two built-in formatters
run their rendering; an opaque caller-supplied callback is recorded as a
`userCall` action. -/
def runLogFn (env : RenderEnv) : log_LogFn → log_Event → List Action
  | log_LogFn.stdout_cb, ev => stdout_callback env ev
  | log_LogFn.file_cb, ev => file_callback env ev
  | log_LogFn.user id, ev => [Action.userCall id ev]

/-- Function `lock()` of `log.c`: if `L.lock_fn` is non-NULL, call
`L.lock_fn(true, L.lock_ptr)`. -/
def lock (st : LState) : List Action :=
  match st.lock_fn with
  | some h => [Action.lockCall h true st.lock_ptr]
  | none => []

/-- Function `unlock()` of `log.c`: if `L.lock_fn` is non-NULL, call
`L.lock_fn(false, L.lock_ptr)`. -/
def unlock (st : LState) : List Action :=
  match st.lock_fn with
  | some h => [Action.lockCall h false st.lock_ptr]
  | none => []

/-- Function `log_set_lock`: store the hook function and its context. -/
def log_set_lock (fn : Option Nat) (p : Ptr) (st : LState) : LState :=
  { st with lock_fn := fn, lock_ptr := p }

/-- Function `log_set_level`: store the standard-output threshold. -/
def log_set_level (level : Nat) (st : LState) : LState :=
  { st with std_level := level }

/-- Function `log_set_quiet`: store the quiet flag. -/
def log_set_quiet (enable : Bool) (st : LState) : LState :=
  { st with std_quiet := enable }

/-- The slot-filling loop of `log_add_callback`: scan the array in index
order; at the first slot whose `fn` is NULL store `(fn, stream, level)` and
report success (`some` of the updated array); report `none` when no slot is
empty. -/
def add_cb_list (fn : Option log_LogFn) (stream : Ptr) (level : Nat) :
    List Callback → Option (List Callback)
  | [] => none
  | cb :: rest =>
    if cb.fn = none then
      some ({ fn := fn, stream := stream, level := level } :: rest)
    else
      (add_cb_list fn stream level rest).map (cb :: ·)

/-- Function `log_add_callback` of `log.c`: fill the first empty registry slot and
return `0`; return `-1` (registry full) leaving `L` untouched when all
`LOGC__MAX_CALLBACKS` slots are taken. -/
def log_add_callback (fn : Option log_LogFn) (stream : Ptr) (level : Nat)
    (st : LState) : Int × LState :=
  match add_cb_list fn stream level st.callbacks with
  | some cbs => (0, { st with callbacks := cbs })
  | none => (-1, st)

/-- Function `log_add_fp` of `log.c`: register the built-in `file_callback` on the
given stream. -/
def log_add_fp (fp : Ptr) (level : Nat) (st : LState) : Int × LState :=
  log_add_callback (some log_LogFn.file_cb) fp level st

/-- The event structure built at the top of `log_log` from the call
arguments (time, stream and `ap` are set later, per delivery; they start out
as the local struct's indeterminate fields, modelled as zeros). -/
def mk_event (level : Nat) (file : String) (line : Int) (fmt : String) : log_Event :=
  { fmt := fmt, ap := [], file := file, line := line, level := level, time := 0, stream := 0 }

/-- Function `init_event` of `log.c` plus the surrounding `va_start`: rebind the
event to a destination stream, stamp it with the current time, and arm the
variadic arguments. -/
def init_event (ev : log_Event) (stream : Ptr) (now : Nat) (ap : VaList) : log_Event :=
  { ev with time := now, stream := stream, ap := ap }

/-- The callback fan-out loop of `log_log`:
`for (i = 0; i < LOGC__MAX_CALLBACKS && L.callbacks[i].fn; i++)` — visit
slots in ascending order, stop at the first NULL `fn`, and for each visited
callback whose threshold satisfies `level >= cb->level` build a fresh event
bound to `cb->stream` and invoke `cb->fn`. -/
def run_callbacks (env : RenderEnv) (level : Nat) (ev : log_Event) (ap : VaList)
    (now : Nat) : List Callback → List Action
  | [] => []
  | cb :: rest =>
    match cb.fn with
    | none => []
    | some f =>
      (if cb.level ≤ level then runLogFn env f (init_event ev cb.stream now ap) else [])
        ++ run_callbacks env level ev ap now rest

/-- The body of `log_log` between `lock()` and `unlock()`: the
standard-output branch (`!L.std_quiet && level >= L.std_level`) followed by
the callback fan-out loop. -/
def log_body (env : RenderEnv) (st : LState) (level : Nat) (file : String)
    (line : Int) (fmt : String) (ap : VaList) (now : Nat) : List Action :=
  (if st.std_quiet = false ∧ st.std_level ≤ level then
      stdout_callback env (init_event (mk_event level file line fmt) LOGC__DEFAULT_STDOUT now ap)
    else [])
    ++ run_callbacks env level (mk_event level file line fmt) ap now st.callbacks

/-- Function `log_log` of `log.c`: build the event, acquire the lock hook, render to
standard output when not quiet and `level >= L.std_level`, fan out to the
registered callbacks, release the lock hook.  The returned trace lists the
side effects in program order. -/
def log_log (env : RenderEnv) (st : LState) (level : Nat) (file : String)
    (line : Int) (fmt : String) (ap : VaList) (now : Nat) : List Action :=
  lock st ++ log_body env st level file line fmt ap now ++ unlock st

/-- Function `log_log` together with its (absent) effect on the global `L`: the C
function only reads `L` — no field of `L` is assigned anywhere in its body —
so the state component of the result is the input state. -/
def log_log_full (env : RenderEnv) (st : LState) (level : Nat) (file : String)
    (line : Int) (fmt : String) (ap : VaList) (now : Nat) : List Action × LState :=
  (log_log env st level file line fmt ap now, st)

/-- The write actions a trace performs on a given stream, in order. -/
def writesTo (p : Ptr) (tr : List Action) : List String :=
  tr.filterMap fun a =>
    match a with
    | Action.write q s => if q = p then some s else none
    | _ => none

/-- The `userCall` actions a trace performs for a given opaque callback id. -/
def userCallsOf (id : Nat) (tr : List Action) : List log_Event :=
  tr.filterMap fun a =>
    match a with
    | Action.userCall j ev => if j = id then some ev else none
    | _ => none

/-- Whether an action is a lock-hook invocation. -/
def isLockCall : Action → Bool
  | Action.lockCall _ _ _ => true
  | _ => false

/-- A concrete render environment used to instantiate the opaque string
producers in closed statements. -/
def env0 : RenderEnv :=
  { strftime_hms := fun _ => "12:00:00"
    strftime_ymd := fun _ => "2026-01-01 12:00:00"
    vfprintf_str := fun f args => f ++ String.join args }

lemma lockfree_stdout_callback (env : RenderEnv) (ev : log_Event) :
    ∀ a ∈ stdout_callback env ev, isLockCall a = false := by
  intro a ha
  simp only [stdout_callback, List.mem_cons, List.not_mem_nil, or_false] at ha
  rcases ha with rfl | rfl | rfl | rfl | rfl | rfl <;> rfl

lemma lockfree_file_callback (env : RenderEnv) (ev : log_Event) :
    ∀ a ∈ file_callback env ev, isLockCall a = false := by
  intro a ha
  simp only [file_callback, List.mem_cons, List.not_mem_nil, or_false] at ha
  rcases ha with rfl | rfl | rfl | rfl | rfl <;> rfl

lemma lockfree_runLogFn (env : RenderEnv) (f : log_LogFn) (ev : log_Event) :
    ∀ a ∈ runLogFn env f ev, isLockCall a = false := by
  cases f with
  | stdout_cb => exact lockfree_stdout_callback env ev
  | file_cb => exact lockfree_file_callback env ev
  | user id =>
    intro a ha
    simp only [runLogFn, List.mem_cons, List.not_mem_nil, or_false] at ha
    subst ha
    rfl

lemma lockfree_run_callbacks (env : RenderEnv) (level : Nat) (ev : log_Event)
    (ap : VaList) (now : Nat) (cbs : List Callback) :
    ∀ a ∈ run_callbacks env level ev ap now cbs, isLockCall a = false := by
  induction cbs with
  | nil => intro a ha; simp [run_callbacks] at ha
  | cons cb rest ih =>
    intro a ha
    rw [run_callbacks] at ha
    cases hfn : cb.fn with
    | none => rw [hfn] at ha; simp at ha
    | some f =>
      rw [hfn, List.mem_append] at ha
      rcases ha with h | h
      · by_cases hl : cb.level ≤ level
        · rw [if_pos hl] at h
          exact lockfree_runLogFn env f _ a h
        · rw [if_neg hl] at h
          simp at h
      · exact ih a h

lemma lockfree_log_body (env : RenderEnv) (st : LState) (level : Nat)
    (file : String) (line : Int) (fmt : String) (ap : VaList) (now : Nat) :
    ∀ a ∈ log_body env st level file line fmt ap now, isLockCall a = false := by
  intro a ha
  rw [log_body, List.mem_append] at ha
  rcases ha with h | h
  · by_cases hc : st.std_quiet = false ∧ st.std_level ≤ level
    · rw [if_pos hc] at h
      exact lockfree_stdout_callback env _ a h
    · rw [if_neg hc] at h
      simp at h
  · exact lockfree_run_callbacks env level _ ap now st.callbacks a h

/-- What one registry slot contributes to a log call's trace: nothing when
the slot is empty or the level is below the slot's threshold, otherwise the
invocation of its callback on a fresh event bound to the slot's stream. -/
def cb_delivery (env : RenderEnv) (level : Nat) (ev : log_Event) (ap : VaList)
    (now : Nat) (cb : Callback) : List Action :=
  match cb.fn with
  | none => []
  | some f => if cb.level ≤ level then runLogFn env f (init_event ev cb.stream now ap) else []

lemma run_callbacks_eq_takeWhile (env : RenderEnv) (level : Nat) (ev : log_Event)
    (ap : VaList) (now : Nat) (cbs : List Callback) :
    run_callbacks env level ev ap now cbs
      = ((cbs.takeWhile fun cb => cb.fn.isSome).map (cb_delivery env level ev ap now)).flatten := by
  induction cbs with
  | nil => rfl
  | cons cb rest ih =>
    cases hfn : cb.fn with
    | none =>
      simp [run_callbacks, List.takeWhile_cons, hfn]
    | some f =>
      simp [run_callbacks, List.takeWhile_cons, hfn, cb_delivery, ih]

lemma run_callbacks_all_some (env : RenderEnv) (level : Nat) (ev : log_Event)
    (ap : VaList) (now : Nat) (cbs : List Callback)
    (h : ∀ cb ∈ cbs, cb.fn ≠ none) :
    run_callbacks env level ev ap now cbs
      = (cbs.map (cb_delivery env level ev ap now)).flatten := by
  rw [run_callbacks_eq_takeWhile]
  congr 2
  apply List.takeWhile_eq_self_iff.2
  intro cb hcb
  exact Option.isSome_iff_ne_none.2 (h cb hcb)

lemma add_cb_list_first_empty (fn : Option log_LogFn) (stream : Ptr) (level : Nat)
    (pop rest : List Callback) (hpop : ∀ cb ∈ pop, cb.fn ≠ none) :
    add_cb_list fn stream level
        (pop ++ ({ fn := none, stream := 0, level := 0 } : Callback) :: rest)
      = some (pop ++ ({ fn := fn, stream := stream, level := level } : Callback) :: rest) := by
  induction pop with
  | nil => simp [add_cb_list]
  | cons p pop ih =>
    have hp : ¬p.fn = none := hpop p (List.mem_cons_self p pop)
    rw [List.cons_append, add_cb_list, if_neg hp,
      ih fun cb hcb => hpop cb (List.mem_cons_of_mem p hcb)]
    rfl

lemma add_cb_list_of_full (fn : Option log_LogFn) (stream : Ptr) (level : Nat)
    (cbs : List Callback) (h : ∀ cb ∈ cbs, cb.fn ≠ none) :
    add_cb_list fn stream level cbs = none := by
  induction cbs with
  | nil => rfl
  | cons p pop ih =>
    rw [add_cb_list, if_neg (h p (List.mem_cons_self p pop)),
      ih fun cb hcb => h cb (List.mem_cons_of_mem p hcb)]
    rfl

/-- The state after the first `k` of a stream of `log_add_callback`
registrations described by `spec` (callback pointer, stream, threshold),
starting from the zero-initialized logger. -/
def c3_adds (spec : Nat → log_LogFn × Ptr × Nat) : Nat → LState
  | 0 => L_init
  | k + 1 =>
    (log_add_callback (some (spec k).1) (spec k).2.1 (spec k).2.2 (c3_adds spec k)).2

lemma c3_adds_shape (spec : Nat → log_LogFn × Ptr × Nat) :
    ∀ k, k ≤ 10 →
      (c3_adds spec k).callbacks
        = (List.range k).map (fun i =>
            ({ fn := some (spec i).1, stream := (spec i).2.1, level := (spec i).2.2 } : Callback))
          ++ List.replicate (10 - k) { fn := none, stream := 0, level := 0 } := by
  intro k
  induction k with
  | zero => intro _; rfl
  | succ k ih =>
    intro hk
    have hshape := ih (Nat.le_of_succ_le hk)
    have hrep : 10 - k = (10 - (k + 1)) + 1 := by omega
    have hmem : ∀ cb ∈ (List.range k).map (fun i =>
        ({ fn := some (spec i).1, stream := (spec i).2.1, level := (spec i).2.2 } : Callback)),
        cb.fn ≠ none := by
      intro cb hcb
      obtain ⟨i, _, rfl⟩ := List.mem_map.1 hcb
      simp
    rw [c3_adds, log_add_callback, hshape, hrep, List.replicate_succ,
      add_cb_list_first_empty _ _ _ _ _ hmem]
    simp [List.range_succ]

lemma c3_adds_fields (spec : Nat → log_LogFn × Ptr × Nat) (k : Nat) :
    (c3_adds spec k).std_level = 0 ∧ (c3_adds spec k).std_quiet = false
    ∧ (c3_adds spec k).lock_fn = none ∧ (c3_adds spec k).lock_ptr = 0 := by
  induction k with
  | zero => exact ⟨rfl, rfl, rfl, rfl⟩
  | succ k ih =>
    rw [c3_adds, log_add_callback]
    cases hadd : add_cb_list (some (spec k).1) (spec k).2.1 (spec k).2.2
        (c3_adds spec k).callbacks with
    | none => simpa using ih
    | some cbs => simpa using ih

/-- Boolean form of the registry prefix invariant: once an empty slot (NULL
callback function) occurs, every later slot is empty too. -/
def prefix_ok (cbs : List Callback) : Bool :=
  (cbs.dropWhile fun cb => cb.fn.isSome).all fun cb => cb.fn.isNone

lemma prefix_ok_cons_of_all (x : Callback) (rest : List Callback)
    (h : (rest.all fun cb => cb.fn.isNone) = true) : prefix_ok (x :: rest) = true := by
  cases hx : x.fn with
  | none => simp [prefix_ok, List.dropWhile_cons, hx, h]
  | some f =>
    simp only [prefix_ok, List.dropWhile_cons, hx, Option.isSome_some, if_true]
    refine List.all_eq_true.2 fun cb hcb => ?_
    exact List.all_eq_true.1 h cb ((List.dropWhile_sublist _).subset hcb)

lemma prefix_ok_cons_of_isSome (x : Callback) (rest : List Callback)
    (hx : x.fn.isSome) : prefix_ok (x :: rest) = prefix_ok rest := by
  simp [prefix_ok, List.dropWhile_cons, hx]

lemma add_cb_list_prefix_ok (fn : Option log_LogFn) (s : Ptr) (l : Nat) :
    ∀ (cbs cbs2 : List Callback), prefix_ok cbs = true →
      add_cb_list fn s l cbs = some cbs2 → prefix_ok cbs2 = true := by
  intro cbs
  induction cbs with
  | nil => intro cbs2 _ hadd; simp [add_cb_list] at hadd
  | cons cb rest ih =>
    intro cbs2 hok hadd
    by_cases hfn : cb.fn = none
    · rw [add_cb_list, if_pos hfn] at hadd
      obtain rfl := (Option.some_inj.1 hadd).symm
      have hrest : (rest.all fun c => c.fn.isNone) = true := by
        have := hok
        simp only [prefix_ok, List.dropWhile_cons, hfn, Option.isSome_none,
          Bool.false_eq_true, if_false, List.all_cons, Bool.and_eq_true] at this
        exact this.2
      exact prefix_ok_cons_of_all _ _ hrest
    · rw [add_cb_list, if_neg hfn] at hadd
      have hx : cb.fn.isSome := Option.isSome_iff_ne_none.2 hfn
      cases hrec : add_cb_list fn s l rest with
      | none => rw [hrec] at hadd; simp at hadd
      | some cbs3 =>
        rw [hrec] at hadd
        simp only [Option.map_some', Option.some_inj] at hadd
        obtain rfl := hadd.symm
        rw [prefix_ok_cons_of_isSome cb cbs3 hx]
        rw [prefix_ok_cons_of_isSome cb rest hx] at hok
        exact ih cbs3 hok hrec

/-- One invocation of a public operation of the logger: `log_set_level`,
`log_set_quiet`, `log_set_lock`, `log_add_callback`, `log_add_fp`, or
`log_log` with its arguments. -/
inductive Op where
  | set_level : Nat → Op
  | set_quiet : Bool → Op
  | set_lock : Option Nat → Ptr → Op
  | add_callback : Option log_LogFn → Ptr → Nat → Op
  | add_fp : Ptr → Nat → Op
  | log : Nat → String → Int → String → VaList → Nat → Op

/-- The effect of one public operation on the global state `L` (the trace a
`log` produces is irrelevant to the state). -/
def applyOp (env : RenderEnv) : Op → LState → LState
  | Op.set_level l, st => log_set_level l st
  | Op.set_quiet b, st => log_set_quiet b st
  | Op.set_lock fn p, st => log_set_lock fn p st
  | Op.add_callback fn s l, st => (log_add_callback fn s l st).2
  | Op.add_fp fp l, st => (log_add_fp fp l st).2
  | Op.log level file line fmt ap now, st =>
    (log_log_full env st level file line fmt ap now).2

lemma applyOp_prefix_ok (env : RenderEnv) (op : Op) (st : LState)
    (h : prefix_ok st.callbacks = true) : prefix_ok (applyOp env op st).callbacks = true := by
  cases op with
  | set_level l => exact h
  | set_quiet b => exact h
  | set_lock fn p => exact h
  | add_callback fn s l =>
    simp only [applyOp, log_add_callback]
    cases hadd : add_cb_list fn s l st.callbacks with
    | none => exact h
    | some cbs2 => exact add_cb_list_prefix_ok fn s l st.callbacks cbs2 h hadd
  | add_fp fp l =>
    simp only [applyOp, log_add_fp, log_add_callback]
    cases hadd : add_cb_list (some log_LogFn.file_cb) fp l st.callbacks with
    | none => exact h
    | some cbs2 =>
      exact add_cb_list_prefix_ok (some log_LogFn.file_cb) fp l st.callbacks cbs2 h hadd
  | log level file line fmt ap now => exact h

end LogC

namespace LogC

/-- C4: `levelName` lookup — for every valid level value 0 through 5,
`log_level_string` returns exactly `"FATAL"`, `"ERROR"`, `"WARN"`, `"INFO"`,
`"DEBUG"`, `"TRACE"` respectively. -/
theorem c4_level_name_lookup :
    log_level_string LOG_FATAL = "FATAL" ∧
    log_level_string LOG_ERROR = "ERROR" ∧
    log_level_string LOG_WARN = "WARN" ∧
    log_level_string LOG_INFO = "INFO" ∧
    log_level_string LOG_DEBUG = "DEBUG" ∧
    log_level_string LOG_TRACE = "TRACE" := by
  refine ⟨rfl, rfl, rfl, rfl, rfl, rfl⟩

/-- C5: quiet mode — for every render environment, state and event, with the
quiet flag set the log call performs no standard-output rendering at all (the
trace is exactly lock, callback fan-out, unlock, for every level), while with
the flag clear the trace additionally contains exactly the standard-output
rendering when the level passes the threshold; the callback fan-out part is
the same expression in both, so sink delivery is unaffected by the flag. -/
theorem c5_quiet_mode (env : RenderEnv) (st : LState) (level : Nat)
    (file : String) (line : Int) (fmt : String) (ap : VaList) (now : Nat) :
    log_log env { st with std_quiet := true } level file line fmt ap now
      = lock st ++ run_callbacks env level (mk_event level file line fmt) ap now st.callbacks
          ++ unlock st
    ∧ log_log env { st with std_quiet := false } level file line fmt ap now
      = lock st
          ++ ((if st.std_level ≤ level then
                stdout_callback env
                  (init_event (mk_event level file line fmt) LOGC__DEFAULT_STDOUT now ap)
              else [])
            ++ run_callbacks env level (mk_event level file line fmt) ap now st.callbacks)
          ++ unlock st := by
  constructor
  · simp [log_log, log_body, lock, unlock]
  · by_cases hl : st.std_level ≤ level <;> simp [log_log, log_body, lock, unlock, hl]

/-- C6: lock-hook protocol — when a hook `h` is installed, the trace of one
log call is exactly one `acquire` invocation, then the body (which contains
no hook invocation, so all writes sit between the two), then exactly one
`release` invocation; when the installed hook is null, no hook invocation
occurs anywhere in the trace. -/
theorem c6_lock_hook_protocol (env : RenderEnv) (st : LState) (level : Nat)
    (file : String) (line : Int) (fmt : String) (ap : VaList) (now : Nat) :
    (∀ h, st.lock_fn = some h →
      log_log env st level file line fmt ap now
        = Action.lockCall h true st.lock_ptr
            :: (log_body env st level file line fmt ap now
              ++ [Action.lockCall h false st.lock_ptr])
      ∧ ∀ a ∈ log_body env st level file line fmt ap now, isLockCall a = false)
    ∧ (st.lock_fn = none →
        ∀ a ∈ log_log env st level file line fmt ap now, isLockCall a = false) := by
  constructor
  · intro h hh
    refine ⟨?_, lockfree_log_body env st level file line fmt ap now⟩
    simp [log_log, lock, unlock, hh]
  · intro hn a ha
    rw [log_log, lock, unlock, hn] at ha
    simp only [List.append_nil, List.nil_append] at ha
    exact lockfree_log_body env st level file line fmt ap now a ha

/-- Witness for C6 at a concrete state: hook `3` with context `9`, quiet,
empty registry — the trace is the acquire, the (hook-free) body, the
release. -/
theorem c6_lock_hook_protocol_witness :
    log_log env0
        { lock_ptr := 9, lock_fn := some 3, std_level := 0, std_quiet := true,
          callbacks := List.replicate LOGC__MAX_CALLBACKS { fn := none, stream := 0, level := 0 } }
        LOG_FATAL "f.c" 1 "m" [] 0
      = Action.lockCall 3 true 9
          :: (log_body env0
                { lock_ptr := 9, lock_fn := some 3, std_level := 0, std_quiet := true,
                  callbacks := List.replicate LOGC__MAX_CALLBACKS { fn := none, stream := 0, level := 0 } }
                LOG_FATAL "f.c" 1 "m" [] 0
            ++ [Action.lockCall 3 false 9]) :=
  ((c6_lock_hook_protocol env0
      { lock_ptr := 9, lock_fn := some 3, std_level := 0, std_quiet := true,
        callbacks := List.replicate LOGC__MAX_CALLBACKS { fn := none, stream := 0, level := 0 } }
      LOG_FATAL "f.c" 1 "m" [] 0).1 3 rfl).1

/-- C10: a log call never modifies the logger's process-wide state — the
standard-output threshold, the quiet flag, the lock hook and its context, and
every registry slot are identical before and after. -/
theorem c10_log_frame (env : RenderEnv) (st : LState) (level : Nat)
    (file : String) (line : Int) (fmt : String) (ap : VaList) (now : Nat) :
    (log_log_full env st level file line fmt ap now).2.std_level = st.std_level
    ∧ (log_log_full env st level file line fmt ap now).2.std_quiet = st.std_quiet
    ∧ (log_log_full env st level file line fmt ap now).2.lock_fn = st.lock_fn
    ∧ (log_log_full env st level file line fmt ap now).2.lock_ptr = st.lock_ptr
    ∧ (log_log_full env st level file line fmt ap now).2.callbacks = st.callbacks :=
  ⟨rfl, rfl, rfl, rfl, rfl⟩

/-- The C1 scenario state: standard threshold `WARN`, quiet off (default),
one file sink on stream `7` registered at threshold `ERROR`. -/
def c1_state : LState := (log_add_fp 7 LOG_ERROR (log_set_level LOG_WARN L_init)).2

/-- C1 fails on the code: in the C1 scenario, logging at `ERROR` writes
nothing to standard output (the claim promises a standard-output line), and
logging at `INFO` does write a file line (the claim promises none) — with
`FATAL=0..TRACE=5`, the test `level >= threshold` passes for levels at the
threshold or numerically above, i.e. equally or less severe. -/
theorem c1_counterexample :
    writesTo LOGC__DEFAULT_STDOUT (log_log env0 c1_state LOG_ERROR "a.c" 1 "msg" [] 0) = []
    ∧ writesTo 7 (log_log env0 c1_state LOG_INFO "a.c" 1 "msg" [] 0) ≠ [] := by
  constructor
  · rfl
  · decide

/-- C1 amended: in the scenario (threshold `WARN`, quiet off, one file sink
at `ERROR`), logging at `INFO` produces both a standard-output line and a
file line; logging at `WARN` produces both as well, each containing `WARN`
and the message; logging at `ERROR` produces only a file line (containing
`ERROR` and the message) and no standard-output line — standard output is
written exactly when it is not quieted and the numeric level is at or above
the threshold, which with `FATAL=0..TRACE=5` means at the threshold's
severity or less severe. -/
theorem c1_amended_end_to_end (env : RenderEnv) (file : String) (line : Int)
    (fmt : String) (ap : VaList) (now : Nat) :
    writesTo LOGC__DEFAULT_STDOUT (log_log env c1_state LOG_INFO file line fmt ap now)
      = [env.strftime_hms now ++ " ", "INFO  ", file ++ ":" ++ toString line ++ ": ",
          env.vfprintf_str fmt ap, "\n"]
    ∧ writesTo 7 (log_log env c1_state LOG_INFO file line fmt ap now)
      = [env.strftime_ymd now ++ " ", "INFO  " ++ file ++ ":" ++ toString line ++ ": ",
          env.vfprintf_str fmt ap, "\n"]
    ∧ writesTo LOGC__DEFAULT_STDOUT (log_log env c1_state LOG_WARN file line fmt ap now)
      = [env.strftime_hms now ++ " ", "WARN  ", file ++ ":" ++ toString line ++ ": ",
          env.vfprintf_str fmt ap, "\n"]
    ∧ writesTo 7 (log_log env c1_state LOG_WARN file line fmt ap now)
      = [env.strftime_ymd now ++ " ", "WARN  " ++ file ++ ":" ++ toString line ++ ": ",
          env.vfprintf_str fmt ap, "\n"]
    ∧ writesTo LOGC__DEFAULT_STDOUT (log_log env c1_state LOG_ERROR file line fmt ap now)
      = []
    ∧ writesTo 7 (log_log env c1_state LOG_ERROR file line fmt ap now)
      = [env.strftime_ymd now ++ " ", "ERROR " ++ file ++ ":" ++ toString line ++ ": ",
          env.vfprintf_str fmt ap, "\n"] := by
  refine ⟨rfl, rfl, rfl, rfl, rfl, rfl⟩

/-- C7: sink iteration — the callback loop of a log call visits registry
slots in ascending order and the trace it produces is the concatenation, in
slot (= registration) order, of the qualifying deliveries over the populated
prefix (`takeWhile` of slots with a non-null function), each delivery built
from a fresh event bound to that sink's stream (`cb_delivery` /
`init_event`); slots from the first empty one on are never visited: whatever
follows an empty slot contributes nothing. -/
theorem c7_sink_iteration_order (env : RenderEnv) (level : Nat) (ev : log_Event)
    (ap : VaList) (now : Nat) :
    (∀ cbs : List Callback,
      run_callbacks env level ev ap now cbs
        = ((cbs.takeWhile fun cb => cb.fn.isSome).map (cb_delivery env level ev ap now)).flatten)
    ∧ (∀ (pre : List Callback) (c : Callback) (rest : List Callback), c.fn = none →
        run_callbacks env level ev ap now (pre ++ c :: rest)
          = run_callbacks env level ev ap now pre) := by
  constructor
  · exact run_callbacks_eq_takeWhile env level ev ap now
  · intro pre c rest hc
    induction pre with
    | nil => simp [run_callbacks, hc]
    | cons p pre ih =>
      rw [List.cons_append, run_callbacks, run_callbacks]
      cases hp : p.fn with
      | none => rfl
      | some f => rw [ih]

/-- Witness for C7 at a concrete registry: a populated slot, then an empty
slot, then another populated slot — the trailing slot is never delivered
to. -/
theorem c7_sink_iteration_order_witness :
    run_callbacks env0 LOG_INFO (mk_event LOG_INFO "f.c" 1 "m") [] 0
        ([{ fn := some (log_LogFn.user 1), stream := 4, level := 0 }]
          ++ ({ fn := none, stream := 0, level := 0 } : Callback)
            :: [{ fn := some (log_LogFn.user 2), stream := 5, level := 0 }])
      = run_callbacks env0 LOG_INFO (mk_event LOG_INFO "f.c" 1 "m") [] 0
          [{ fn := some (log_LogFn.user 1), stream := 4, level := 0 }] :=
  (c7_sink_iteration_order env0 LOG_INFO (mk_event LOG_INFO "f.c" 1 "m") [] 0).2
    [{ fn := some (log_LogFn.user 1), stream := 4, level := 0 }]
    { fn := none, stream := 0, level := 0 }
    [{ fn := some (log_LogFn.user 2), stream := 5, level := 0 }] rfl

/-- The C2 scenario state: a single opaque sink (id `0`) on stream `8`
registered at threshold `l2` in an otherwise empty registry. -/
def c2_state (l2 : Nat) : LState :=
  (log_add_callback (some (log_LogFn.user 0)) 8 l2 L_init).2

/-- C2 fails on the code: a sink registered at threshold `ERROR = 1` does
not receive an event logged at the more severe level `FATAL = 0`
(`0 >= 1` fails), yet it does receive an event logged at the less severe
level `TRACE = 5` (`5 >= 1` holds). -/
theorem c2_counterexample :
    userCallsOf 0 (log_log env0 (c2_state LOG_ERROR) LOG_FATAL "a.c" 1 "m" [] 0) = []
    ∧ userCallsOf 0 (log_log env0 (c2_state LOG_ERROR) LOG_TRACE "a.c" 1 "m" [] 0) ≠ [] := by
  constructor
  · rfl
  · decide

/-- C2 amended: a sink registered at threshold `L2` receives exactly the
events logged at levels numerically at or above `L2` — i.e. at `L2` itself or
at levels less severe than `L2` — and receives no event logged at a level
numerically below `L2` (more severe); in particular, for `L1 < L2` (`L1` more
severe) the sink does not receive events logged at `L1`. -/
theorem c2_amended_sink_threshold (env : RenderEnv) (l2 level : Nat)
    (file : String) (line : Int) (fmt : String) (ap : VaList) (now : Nat) :
    (l2 ≤ level →
      userCallsOf 0 (log_log env (c2_state l2) level file line fmt ap now)
        = [init_event (mk_event level file line fmt) 8 now ap])
    ∧ (level < l2 →
        userCallsOf 0 (log_log env (c2_state l2) level file line fmt ap now) = []) := by
  have hcb : (c2_state l2).callbacks
      = ({ fn := some (log_LogFn.user 0), stream := 8, level := l2 } : Callback)
          :: List.replicate 9 { fn := none, stream := 0, level := 0 } := rfl
  constructor
  · intro h
    simp [log_log, log_body, lock, unlock, c2_state, log_add_callback, add_cb_list,
      L_init, LOGC__MAX_CALLBACKS, List.replicate, run_callbacks, runLogFn, h,
      userCallsOf, stdout_callback]
  · intro h
    simp [log_log, log_body, lock, unlock, c2_state, log_add_callback, add_cb_list,
      L_init, LOGC__MAX_CALLBACKS, List.replicate, run_callbacks, runLogFn,
      Nat.not_le.2 h, userCallsOf, stdout_callback]

/-- Witness for C2: a sink at threshold `ERROR = 1` receives a `TRACE = 5`
event, and a sink at threshold `TRACE = 5` receives no `ERROR = 1` event. -/
theorem c2_amended_sink_threshold_witness :
    userCallsOf 0 (log_log env0 (c2_state LOG_ERROR) LOG_TRACE "a.c" 1 "m" [] 0)
        = [init_event (mk_event LOG_TRACE "a.c" 1 "m") 8 0 []]
    ∧ userCallsOf 0 (log_log env0 (c2_state LOG_TRACE) LOG_ERROR "a.c" 1 "m" [] 0) = [] :=
  ⟨(c2_amended_sink_threshold env0 LOG_ERROR LOG_TRACE "a.c" 1 "m" [] 0).1 (by decide),
    (c2_amended_sink_threshold env0 LOG_TRACE LOG_ERROR "a.c" 1 "m" [] 0).2 (by decide)⟩

/-- C3: registry capacity and atomicity — starting from the empty registry
(capacity 10), for any stream of registrations the first 10 calls each
return the success code `0`; the 11th returns the registry-full code `-1`
and leaves the whole state unchanged; and a log call afterwards still
delivers the event, in order, to every one of the first 10 sinks whose
threshold qualifies (the full trace is the standard-output rendering
followed by the qualifying deliveries of slots 0 through 9). -/
theorem c3_registry_capacity (spec : Nat → log_LogFn × Ptr × Nat) :
    (∀ k, k < 10 →
      (log_add_callback (some (spec k).1) (spec k).2.1 (spec k).2.2 (c3_adds spec k)).1 = 0)
    ∧ (log_add_callback (some (spec 10).1) (spec 10).2.1 (spec 10).2.2 (c3_adds spec 10)).1
        = -1
    ∧ (log_add_callback (some (spec 10).1) (spec 10).2.1 (spec 10).2.2 (c3_adds spec 10)).2
        = c3_adds spec 10
    ∧ ∀ (env : RenderEnv) (level : Nat) (file : String) (line : Int) (fmt : String)
        (ap : VaList) (now : Nat),
        log_log env (c3_adds spec 10) level file line fmt ap now
          = stdout_callback env
              (init_event (mk_event level file line fmt) LOGC__DEFAULT_STDOUT now ap)
            ++ ((List.range 10).map fun i =>
                if (spec i).2.2 ≤ level then
                  runLogFn env (spec i).1
                    (init_event (mk_event level file line fmt) (spec i).2.1 now ap)
                else []).flatten := by
  have hmem : ∀ k, k ≤ 10 → ∀ cb ∈ (List.range k).map (fun i =>
      ({ fn := some (spec i).1, stream := (spec i).2.1, level := (spec i).2.2 } : Callback)),
      cb.fn ≠ none := by
    intro k _ cb hcb
    obtain ⟨i, _, rfl⟩ := List.mem_map.1 hcb
    simp
  have hshape10 : (c3_adds spec 10).callbacks
      = (List.range 10).map (fun i =>
          ({ fn := some (spec i).1, stream := (spec i).2.1, level := (spec i).2.2 } : Callback)) := by
    rw [c3_adds_shape spec 10 (le_refl 10)]
    simp
  refine ⟨?_, ?_, ?_, ?_⟩
  · intro k hk
    have hrep : 10 - k = (10 - (k + 1)) + 1 := by omega
    rw [log_add_callback, c3_adds_shape spec k (Nat.le_of_lt hk), hrep, List.replicate_succ,
      add_cb_list_first_empty _ _ _ _ _ (hmem k (Nat.le_of_lt hk))]
  · rw [log_add_callback, hshape10,
      add_cb_list_of_full _ _ _ _ (hmem 10 (le_refl 10))]
  · rw [log_add_callback, hshape10,
      add_cb_list_of_full _ _ _ _ (hmem 10 (le_refl 10))]
  · intro env level file line fmt ap now
    obtain ⟨hlev, hq, hlock, _⟩ := c3_adds_fields spec 10
    rw [log_log, log_body]
    rw [lock, unlock]
    rw [hlock]
    rw [if_pos (by rw [hq, hlev]; exact ⟨rfl, Nat.zero_le level⟩)]
    rw [hshape10, run_callbacks_all_some _ _ _ _ _ _ (hmem 10 (le_refl 10)),
      List.map_map]
    simp only [List.nil_append, List.append_nil]
    rfl

/-- A concrete registration stream for the C3 witness: sink `i` is the
opaque callback `i` on stream `100 + i` at threshold `0`. -/
def c3_specW : Nat → log_LogFn × Ptr × Nat := fun i => (log_LogFn.user i, 100 + i, 0)

/-- Witness for C3: with the concrete stream `c3_specW`, the 6th
registration (index 5) succeeds and the 11th returns `-1`. -/
theorem c3_registry_capacity_witness :
    (log_add_callback (some (c3_specW 5).1) (c3_specW 5).2.1 (c3_specW 5).2.2
        (c3_adds c3_specW 5)).1 = 0
    ∧ (log_add_callback (some (c3_specW 10).1) (c3_specW 10).2.1 (c3_specW 10).2.2
        (c3_adds c3_specW 10)).1 = -1 :=
  ⟨(c3_registry_capacity c3_specW).1 5 (by decide),
    (c3_registry_capacity c3_specW).2.1⟩

/-- C9: registry prefix invariant — starting from the zero-initialized
state, after any sequence of public operations the populated registry slots
form a contiguous prefix: once a slot with a NULL callback function occurs,
every later slot has a NULL function as well. -/
theorem c9_registry_prefix_invariant (env : RenderEnv) (ops : List Op) :
    prefix_ok ((ops.foldl (fun st op => applyOp env op st) L_init).callbacks) = true := by
  suffices hgen : ∀ (l : List Op) (st : LState), prefix_ok st.callbacks = true →
      prefix_ok ((l.foldl (fun st op => applyOp env op st) st).callbacks) = true by
    exact hgen ops L_init (by decide)
  intro l
  induction l with
  | nil => intro st h; exact h
  | cons op rest ih =>
    intro st h
    exact ih (applyOp env op st) (applyOp_prefix_ok env op st h)

/-- The concatenation of everything a trace writes (to any stream), in
order. -/
def written_text (tr : List Action) : String :=
  tr.foldr
    (fun a acc =>
      match a with
      | Action.write _ s => s ++ acc
      | _ => acc)
    ""

/-- C8: rendering format — both built-in formatters emit (after their
timestamp prefix) the level name padded with spaces to the fixed width 5,
then the `file:line:` token, then the expansion of the format string against
the variadic arguments, then a single newline; the level-name field is
exactly 5 characters wide for every valid level; and the last action of each
formatter is a flush of its destination. -/
theorem c8_render_format (env : RenderEnv) (ev : log_Event) :
    written_text (stdout_callback env ev)
      = env.strftime_hms ev.time ++ " "
          ++ (pad_minus_5 (level_strings.getD ev.level "") ++ " ")
          ++ (ev.file ++ ":" ++ toString ev.line ++ ": ")
          ++ env.vfprintf_str ev.fmt ev.ap ++ "\n"
    ∧ written_text (file_callback env ev)
      = env.strftime_ymd ev.time ++ " "
          ++ (pad_minus_5 (level_strings.getD ev.level "") ++ " " ++ ev.file ++ ":"
              ++ toString ev.line ++ ": ")
          ++ env.vfprintf_str ev.fmt ev.ap ++ "\n"
    ∧ (stdout_callback env ev).getLast? = some (Action.flush ev.stream)
    ∧ (file_callback env ev).getLast? = some (Action.flush ev.stream)
    ∧ ∀ l, l < 6 → (pad_minus_5 (level_strings.getD l "")).length = 5 := by
  refine ⟨?_, ?_, rfl, rfl, ?_⟩
  · simp only [written_text, stdout_callback, List.foldr, String.append_assoc]
    rfl
  · simp only [written_text, file_callback, List.foldr, String.append_assoc]
    rfl
  · intro l hl
    interval_cases l <;> decide

/-- Witness for C8: the `WARN` level name rendered by `"%-5s"` occupies
exactly 5 characters. -/
theorem c8_render_format_witness :
    (pad_minus_5 (level_strings.getD LOG_WARN "")).length = 5 :=
  (c8_render_format env0 (mk_event LOG_WARN "a.c" 1 "m")).2.2.2.2 LOG_WARN (by decide)

/-- Witness for the amended C1 at a concrete input: logging at `ERROR` in
the scenario writes nothing to standard output. -/
theorem c1_amended_end_to_end_witness :
    writesTo LOGC__DEFAULT_STDOUT (log_log env0 c1_state LOG_ERROR "a.c" 1 "m" [] 0) = [] :=
  (c1_amended_end_to_end env0 "a.c" 1 "m" [] 0).2.2.2.2.1

/-- Witness for C5 at a concrete input: with the quiet flag set on the
initial state, the trace is exactly the callback fan-out between lock and
unlock. -/
theorem c5_quiet_mode_witness :
    log_log env0 { L_init with std_quiet := true } LOG_FATAL "a.c" 1 "m" [] 0
      = lock L_init
          ++ run_callbacks env0 LOG_FATAL (mk_event LOG_FATAL "a.c" 1 "m") [] 0
              L_init.callbacks
          ++ unlock L_init :=
  (c5_quiet_mode env0 L_init LOG_FATAL "a.c" 1 "m" [] 0).1

/-- Witness for C9 at a concrete operation sequence: after registering one
file sink, the registry still satisfies the contiguous-prefix invariant. -/
theorem c9_registry_prefix_invariant_witness :
    prefix_ok (([Op.add_fp 7 LOG_ERROR].foldl (fun st op => applyOp env0 op st)
        L_init).callbacks) = true :=
  c9_registry_prefix_invariant env0 [Op.add_fp 7 LOG_ERROR]

/-- Witness for C10 at a concrete input: a log call on the initial state
leaves the standard-output threshold unchanged. -/
theorem c10_log_frame_witness :
    (log_log_full env0 L_init LOG_FATAL "a.c" 1 "m" [] 0).2.std_level
      = L_init.std_level :=
  (c10_log_frame env0 L_init LOG_FATAL "a.c" 1 "m" [] 0).1

end LogC
